import Mathlib

/-!
Shallow embedding of the protocol layer of pyhkp (src/pyhkp.py), an HTTP
keyserver (HKP) front-end: search-term normalization (clean_search),
operation-name cleaning (clean_op), the /pks/lookup dispatcher, the
get/index/vindex lookup handlers, and the /pks/add submission handler.
The external collaborators (the gpgme context and the Flask transport) are
modelled as explicit data: a key store is a list of keys, the gpgme calls
are fields of a context record, and a Flask response is a
(status, body, mimetype) triple.
-/

namespace Pyhkp

/-- Python str.upper on one character of a byte string: ASCII a-z are mapped
to A-Z (code point minus 32), every other character is unchanged. -/
def pyUpperChar (c : Char) : Char :=
  if 97 ≤ c.toNat ∧ c.toNat ≤ 122 then Char.ofNat (c.toNat - 32) else c

/-- Python str.lower on one character of a byte string: ASCII A-Z are mapped
to a-z (code point plus 32), every other character is unchanged. -/
def pyLowerChar (c : Char) : Char :=
  if 65 ≤ c.toNat ∧ c.toNat ≤ 90 then Char.ofNat (c.toNat + 32) else c

/-- Python s.upper(): characterwise ASCII uppercasing. -/
def pyUpper (s : String) : String :=
  String.mk (s.data.map pyUpperChar)

/-- Python s.lower(): characterwise ASCII lowercasing. -/
def pyLower (s : String) : String :=
  String.mk (s.data.map pyLowerChar)

/-- Python needle in hay on character lists: true iff needle occurs as a
contiguous subsequence (the empty needle always occurs). -/
def substrOf (needle : List Char) : List Char → Bool
  | [] => needle.isEmpty
  | c :: t => needle.isPrefixOf (c :: t) || substrOf needle t

/-- Python needle in hay for strings. -/
def strContains (hay needle : String) : Bool :=
  substrOf needle.data hay.data

/-- Effect of search_re.sub('', s) where search_re = re.compile("^0x",
re.IGNORECASE): the pattern is anchored at the start (no MULTILINE), so it
removes at most one leading literal 0 followed by x or X. -/
def stripHex (s : String) : String :=
  match s.data with
  | '0' :: c :: rest => if c = 'x' ∨ c = 'X' then String.mk rest else s
  | _ => s

/-- clean_search(s) from pyhkp.py: str(search_re.sub('', s).upper()). -/
def clean_search (s : String) : String :=
  pyUpper (stripHex s)

/-- The character class [a-z] of op_re = re.compile("[^a-z]"). -/
def isLowerAZ (c : Char) : Bool :=
  decide (97 ≤ c.toNat ∧ c.toNat ≤ 122)

/-- clean_op(s) from pyhkp.py: op_re.sub('', s).lower(). The substitution
removes every character outside lowercase a-z first; .lower() is applied to
the remainder. -/
def clean_op (s : String) : String :=
  pyLower (String.mk (s.data.filter isLowerAZ))

/-- A Flask response as the handlers build it: flask.make_response(body,
status) has mimetype text/html by default; some handlers then set
resp.mimetype = "text/plain". -/
structure Response where
  status : Nat
  body : String
  mimetype : String
deriving DecidableEq

/-- A gpgme uid entry as accessed by the source (uid.uid). -/
structure PyUid where
  uid : String
deriving DecidableEq

/-- A gpgme subkey entry as accessed by the source (subkey.fpr). -/
structure PySubkey where
  fpr : String
deriving DecidableEq

/-- A gpgme key as accessed by the source: k.uids and k.subkeys. -/
structure PyKey where
  uids : List PyUid
  subkeys : List PySubkey
deriving DecidableEq

/-- The key store as seen by the index handler: ctx.keylist() enumerates the
keys in a fixed order. -/
structure KeyStore where
  keys : List PyKey
deriving DecidableEq

/-- The gpgme context as seen by the get handler. get_key either returns a
key or raises gpgme.GpgmeError (modelled as Except.error); exportData is the
byte content that ctx.export(search, keydata) writes into the keydata
buffer. -/
structure GetContext where
  get_key : String → Except Unit PyKey
  exportData : String → String

/-- Truthiness of an io.BytesIO object (or the StringIO fallback): neither
class defines a boolean conversion or a length, so the instance is truthy
no matter what it contains. The source's if keydata: tests the buffer
object itself, not its value. -/
def bytesIOTruthy (_contents : String) : Bool :=
  true

/-- LookupOpHandler.get from pyhkp.py: require search (absent gives 500),
normalize it, look the key up by fingerprint/key id (a GpgmeError is caught
and treated as no match, giving 404), export it into a buffer, and test the
buffer with if keydata: before answering 200 text/plain with the exported
bytes; the trailing 404 is returned only when that test fails. -/
def LookupOpHandler.get (search? : Option String) (ctx : GetContext) : Response :=
  match search? with
  | none => { status := 500, body := "Missing required search parameter", mimetype := "text/html" }
  | some s0 =>
    let search := clean_search s0
    let matched : Option PyKey :=
      match ctx.get_key search with
      | .error _ => none
      | .ok k => some k
    match matched with
    | none => { status := 404, body := "No key matching search=" ++ search, mimetype := "text/html" }
    | some _ =>
      let keydata := ctx.exportData search
      if bytesIOTruthy keydata then
        { status := 200, body := keydata, mimetype := "text/plain" }
      else
        { status := 404, body := "No key matching search=" ++ search, mimetype := "text/html" }

/-- The uid loop of LookupOpHandler.index: match_uid is true iff some uid,
uppercased, contains the normalized search term. -/
def uidMatches (search : String) (k : PyKey) : Bool :=
  k.uids.any fun u => strContains (pyUpper u.uid) search

/-- True iff some subkey fingerprint of k contains the search term (the
fingerprint itself is not uppercased in the source). -/
def subkeyMatches (search : String) (k : PyKey) : Bool :=
  k.subkeys.any fun sk => strContains sk.fpr search

/-- The matches list built by the key loop of LookupOpHandler.index: for
each key, compute match_uid, then append str(subkey.fpr) for every subkey
with match_uid or search in subkey.fpr, preserving enumeration order. -/
def indexMatches (search : String) : List PyKey → List String
  | [] => []
  | k :: ks =>
    let match_uid := uidMatches search k
    ((k.subkeys.filter fun sk => match_uid || strContains sk.fpr search).map PySubkey.fpr)
      ++ indexMatches search ks

/-- LookupOpHandler.index from pyhkp.py: require search (absent gives 400),
normalize, reject normalized terms shorter than four characters with 500,
build the matches list over ctx.keylist(), and answer 200 text/plain with
the newline-joined matches when non-empty, else 404. -/
def LookupOpHandler.index (search? : Option String) (ctx : KeyStore) : Response :=
  match search? with
  | none => { status := 400, body := "Missing required argument: search", mimetype := "text/html" }
  | some s0 =>
    let search := clean_search s0
    if search.length < 4 then
      { status := 500, body := "Search must be at least four characters", mimetype := "text/html" }
    else
      match indexMatches search ctx.keys with
      | [] =>
        { status := 404, body := "No keys matching search request: " ++ search, mimetype := "text/html" }
      | m :: ms =>
        { status := 200, body := String.intercalate "\n" (m :: ms), mimetype := "text/plain" }

/-- LookupOpHandler.vindex from pyhkp.py: a fixed 501 response. -/
def LookupOpHandler.vindex : Response :=
  { status := 501, body := "VIndex search not supported by this server.", mimetype := "text/html" }

/-- The three operations defined on LookupOpHandler. -/
def opNames : List String :=
  ["get", "index", "vindex"]

/-- Attribute names resolvable by getattr(LookupOpHandler, name, None) on
the Python 2 old-style class LookupOpHandler: its class dict (the three
operations plus the docstring and module dunders) and the special class
attributes. -/
def lookupOpHandlerAttrNames : List String :=
  ["get", "index", "vindex", "__doc__", "__module__", "__name__", "__bases__", "__dict__"]

/-- getattr(LookupOpHandler, name, None), returning the name of the member
found, if any. -/
def getattrLookupOpHandler (name : String) : Option String :=
  if name ∈ lookupOpHandlerAttrNames then some name else none

/-- A Python exception relevant to the lookup route: re.sub raises TypeError
when handed None instead of a string. -/
inductive PyError
  | typeError
deriving DecidableEq

/-- Outcome of the lookup route: either a member of LookupOpHandler was
found truthy and invoked as handler(), or a response was returned directly. -/
inductive LookupOutcome
  | invoked (member : String)
  | response (resp : Response)
deriving DecidableEq

/-- Result of running the route body: a value, or an uncaught exception. -/
inductive DispatchResult
  | raised (e : PyError)
  | value (o : LookupOutcome)
deriving DecidableEq

/-- The /pks/lookup route from pyhkp.py: op = request.args.get('op', None)
is passed to clean_op unconditionally, so an absent op reaches
re.sub('', None) and raises TypeError before any branch is taken. With op
present, the cleaned name is tested for truthiness (non-empty), resolved
via getattr(LookupOpHandler, op, None) - every resolvable member here is
truthy - and invoked when found; an unresolved non-empty name gets 501 and
an empty cleaned name gets the 400 missing-argument response. -/
def lookup (rawOp : Option String) : DispatchResult :=
  match rawOp with
  | none => .raised .typeError
  | some s =>
    let op := clean_op s
    if op = "" then
      .value (.response { status := 400, body := "Missing required argument: op", mimetype := "text/html" })
    else
      match getattrLookupOpHandler op with
      | some m => .value (.invoked m)
      | none =>
        .value (.response { status := 501, body := "Operation not supported: " ++ op, mimetype := "text/html" })

/-- One entry of result.imports from gpgme import: a (fingerprint, result,
status) triple of which the source uses only the first component. -/
structure ImportEntry where
  fpr : String
  res : Nat
  state : Nat
deriving DecidableEq

/-- The gpgme ImportResult as the source reads it: the imported count and
the imports list. -/
structure ImportResult where
  imported : Nat
  imports : List ImportEntry
deriving DecidableEq

/-- Outcome of str(keytext) followed by ctx.import_(keydata): the result
object (possibly falsy, modelled as none), or one of the two exceptions the
source catches. -/
inductive ImportCall
  | ok (result : Option ImportResult)
  | unicodeEncodeError (msg : String)
  | gpgmeError (msg : String)
deriving DecidableEq

/-- The /pks/add route from pyhkp.py: a UnicodeEncodeError gives 400, a
GpgmeError gives 403, a truthy import result gives "Keys imported:" plus the
newline-joined first components of result.imports with status 201 when
result.imported is non-zero and 200 otherwise, and any other outcome falls
through to the final 404. -/
def add (call : ImportCall) : Response :=
  match call with
  | .unicodeEncodeError msg =>
    { status := 400, body := "Invalid characters in request: " ++ msg, mimetype := "text/html" }
  | .gpgmeError msg =>
    { status := 403, body := "GPGME: " ++ msg, mimetype := "text/html" }
  | .ok none =>
    { status := 404, body := "No keys were imported due to an unknown error", mimetype := "text/html" }
  | .ok (some result) =>
    { status := if result.imported ≠ 0 then 201 else 200,
      body := "Keys imported:\n" ++ String.intercalate "\n" (result.imports.map ImportEntry.fpr),
      mimetype := "text/html" }

/-- Amended per-key contribution to the index matches list: a key matching
via a uid contributes every subkey fingerprint; a key not matching via any
uid contributes exactly those subkey fingerprints that contain the term. -/
def indexKeyContribution (search : String) (k : PyKey) : List String :=
  if uidMatches search k then
    k.subkeys.map PySubkey.fpr
  else
    (k.subkeys.filter fun sk => strContains sk.fpr search).map PySubkey.fpr

/-- A context whose key lookup always succeeds and whose export writes
nothing into the buffer. -/
def emptyExportCtx : GetContext :=
  { get_key := fun _ => .ok { uids := [], subkeys := [] }, exportData := fun _ => "" }

lemma char_toNat_ofNat (n : Nat) (h : n < 55296) : (Char.ofNat n).toNat = n := by
  have hv : n.isValidChar := Or.inl h
  simp [Char.ofNat, hv, Char.ofNatAux, Char.toNat, UInt32.toNat, BitVec.toNat_ofNatLt]

lemma pyUpperChar_idem (c : Char) : pyUpperChar (pyUpperChar c) = pyUpperChar c := by
  unfold pyUpperChar
  by_cases h : 97 ≤ c.toNat ∧ c.toNat ≤ 122
  · have ht : (Char.ofNat (c.toNat - 32)).toNat = c.toNat - 32 :=
      char_toNat_ofNat _ (by omega)
    rw [if_pos h, ht, if_neg (by omega)]
  · rw [if_neg h, if_neg h]

lemma map_upper_idem (l : List Char) :
    (l.map pyUpperChar).map pyUpperChar = l.map pyUpperChar := by
  induction l with
  | nil => rfl
  | cons c t ih => simp [List.map_cons, pyUpperChar_idem, ih]

lemma pyUpper_idem (s : String) : pyUpper (pyUpper s) = pyUpper s :=
  congrArg String.mk (map_upper_idem s.data)

lemma pyLowerChar_of_az (c : Char) (h : isLowerAZ c = true) : pyLowerChar c = c := by
  have h' : 97 ≤ c.toNat ∧ c.toNat ≤ 122 := by simpa [isLowerAZ] using h
  unfold pyLowerChar
  rw [if_neg (by omega)]

lemma map_lower_filter (l : List Char) :
    (l.filter isLowerAZ).map pyLowerChar = l.filter isLowerAZ := by
  induction l with
  | nil => rfl
  | cons c t ih =>
    by_cases h : isLowerAZ c = true
    · simp [List.filter_cons, h, pyLowerChar_of_az c h, ih]
    · simp [List.filter_cons, h, ih]

lemma clean_op_data (s : String) : (clean_op s).data = s.data.filter isLowerAZ :=
  map_lower_filter s.data

lemma clean_op_mem_az (s : String) (c : Char) (hc : c ∈ (clean_op s).data) :
    isLowerAZ c = true := by
  rw [clean_op_data] at hc
  exact (List.mem_filter.mp hc).2

lemma clean_op_attr_is_op (s : String) (h : clean_op s ∈ lookupOpHandlerAttrNames) :
    clean_op s ∈ opNames := by
  have haz : ∀ c ∈ (clean_op s).data, isLowerAZ c = true := clean_op_mem_az s
  simp only [lookupOpHandlerAttrNames, List.mem_cons, List.not_mem_nil, or_false] at h
  rcases h with h | h | h | h | h | h | h | h
  · simp [opNames, h]
  · simp [opNames, h]
  · simp [opNames, h]
  all_goals
    exfalso
    have h1 : '_' ∈ (clean_op s).data := by rw [h]; decide
    exact absurd (haz '_' h1) (by decide)

/-- C2: search normalization is not idempotent in general; the string
0x0xab normalizes to 0XAB, which normalizes again to AB. -/
theorem C2_counterexample :
    clean_search "0x0xab" = "0XAB" ∧ clean_search "0XAB" = "AB" ∧
    clean_search (clean_search "0x0xab") ≠ clean_search "0x0xab" := by
  decide

/-- C2 (amended): normalization is idempotent on every string whose
normalized form does not itself begin with a 0x/0X prefix, i.e. whenever
stripping the prefix from the normalized form is a no-op. -/
theorem C2_normalize_idem (s : String)
    (h : stripHex (clean_search s) = clean_search s) :
    clean_search (clean_search s) = clean_search s := by
  show pyUpper (stripHex (clean_search s)) = clean_search s
  rw [h]
  show pyUpper (pyUpper (stripHex s)) = pyUpper (stripHex s)
  exact pyUpper_idem _

/-- C2 witness: the amended idempotence at the concrete input 0xabcd. -/
theorem C2_normalize_idem_witness :
    clean_search (clean_search "0xabcd") = clean_search "0xabcd" :=
  C2_normalize_idem "0xabcd" (by decide)

/-- C3: cleaning the raw op Get!! removes the uppercase G (the [^a-z]
substitution runs before .lower()), yielding et, so dispatch answers 501
Operation not supported: et instead of invoking the get handler. -/
theorem C3_clean_op_drops_uppercase :
    clean_op "Get!!" = "et" ∧
    lookup (some "Get!!") = .value (.response
      { status := 501, body := "Operation not supported: et", mimetype := "text/html" }) := by
  decide

/-- C6: with the op query parameter absent, the route passes None to
clean_op, so re.sub raises TypeError before any branch runs; the 400
missing-argument response is never produced on that path. -/
theorem C6_missing_op_raises :
    lookup none = .raised .typeError ∧
    lookup none ≠ .value (.response
      { status := 400, body := "Missing required argument: op", mimetype := "text/html" }) := by
  decide

/-- C1: the universal 501 for non-operation cleaned names fails when the
cleaned name is empty: the raw op 123 cleans to the empty string, which is
not an operation name, yet the route answers 400, not 501. -/
theorem C1_counterexample :
    clean_op "123" = "" ∧ clean_op "123" ∉ opNames ∧
    lookup (some "123") ≠ .value (.response
      { status := 501, body := "Operation not supported: " ++ clean_op "123", mimetype := "text/html" }) ∧
    lookup (some "123") = .value (.response
      { status := 400, body := "Missing required argument: op", mimetype := "text/html" }) := by
  decide

/-- C1 (amended): for every raw op whose cleaned form is non-empty and is
not one of get, index, vindex, the route answers 501 with body Operation
not supported: followed by the cleaned name; and the route never invokes
any member of LookupOpHandler other than the three declared operations, in
particular no inherited or dunder attribute is reachable, because a cleaned
name contains only characters a-z. -/
theorem C1_unknown_op_501 (s : String) :
    (clean_op s ≠ "" → clean_op s ∉ opNames →
      lookup (some s) = .value (.response
        { status := 501, body := "Operation not supported: " ++ clean_op s,
          mimetype := "text/html" })) ∧
    (∀ m, lookup (some s) = .value (.invoked m) → m ∈ opNames) := by
  constructor
  · intro hne hno
    have hattr : getattrLookupOpHandler (clean_op s) = none := by
      unfold getattrLookupOpHandler
      rw [if_neg (fun h => hno (clean_op_attr_is_op s h))]
    simp [lookup, hne, hattr]
  · intro m hm
    by_cases hne : clean_op s = ""
    · simp [lookup, hne] at hm
    · cases hattr : getattrLookupOpHandler (clean_op s) with
      | none => simp [lookup, hne, hattr] at hm
      | some m0 =>
        simp [lookup, hne, hattr] at hm
        have h1 : clean_op s ∈ lookupOpHandlerAttrNames := by
          by_contra hcon
          unfold getattrLookupOpHandler at hattr
          rw [if_neg hcon] at hattr
          cases hattr
        have h2 : m0 = clean_op s := by
          unfold getattrLookupOpHandler at hattr
          rw [if_pos h1] at hattr
          exact (Option.some.inj hattr).symm
        rw [← hm, h2]
        exact clean_op_attr_is_op s h1

/-- C1 witness: the raw op bogus cleans to the non-operation name bogus and
receives the 501 response. -/
theorem C1_unknown_op_501_witness :
    lookup (some "bogus") = .value (.response
      { status := 501, body := "Operation not supported: " ++ clean_op "bogus",
        mimetype := "text/html" }) :=
  (C1_unknown_op_501 "bogus").1 (by decide) (by decide)

/-- C4: with a context whose key lookup succeeds but whose export writes no
bytes, the get handler answers 200 with an empty text/plain body rather
than 404, because the source tests the truthiness of the BytesIO object
(always true) instead of the bytes it holds; the 404 branch after export is
unreachable. -/
theorem C4_empty_export_200 :
    LookupOpHandler.get (some "0xAAAA") emptyExportCtx =
      { status := 200, body := "", mimetype := "text/plain" } ∧
    (LookupOpHandler.get (some "0xAAAA") emptyExportCtx).status ≠ 404 := by
  decide

/-- C5: a key can match only via a subkey fingerprint, and then only the
matching subkeys are appended: with one key carrying subkeys AAAA1111 and
BBBB2222 and no uids, the search AAAA matches the key via its first
subkey, yet the response body lists AAAA1111 alone, not both. -/
theorem C5_counterexample :
    strContains "AAAA1111" (clean_search "AAAA") = true ∧
    LookupOpHandler.index (some "AAAA")
      { keys := [{ uids := [], subkeys := [{ fpr := "AAAA1111" }, { fpr := "BBBB2222" }] }] } =
      { status := 200, body := "AAAA1111", mimetype := "text/plain" } ∧
    ("AAAA1111" : String) ≠ "AAAA1111\nBBBB2222" := by
  decide

/-- C5 (amended): the matches list is the concatenation, in store
enumeration order and without de-duplication, of per-key contributions,
where a key matching via some uid contributes every one of its subkey
fingerprints and a key not matching via any uid contributes exactly those
subkey fingerprints containing the normalized term. -/
theorem C5_index_contribution (search : String) (keys : List PyKey) :
    indexMatches search keys = (keys.map (indexKeyContribution search)).flatten := by
  induction keys with
  | nil => rfl
  | cons k ks ih =>
    show ((k.subkeys.filter fun sk => uidMatches search k || strContains sk.fpr search).map
        PySubkey.fpr) ++ indexMatches search ks = _
    rw [List.map_cons, List.flatten_cons, ih]
    by_cases h : uidMatches search k = true
    · simp [indexKeyContribution, h]
    · rw [Bool.not_eq_true] at h
      simp [indexKeyContribution, h]

/-- C5 witness: the amended per-key contribution law evaluated on the
concrete counterexample store. -/
theorem C5_index_contribution_witness :
    indexMatches (clean_search "AAAA")
        [{ uids := [], subkeys := [{ fpr := "AAAA1111" }, { fpr := "BBBB2222" }] }] =
      (List.map (indexKeyContribution (clean_search "AAAA"))
        [{ uids := [], subkeys := [{ fpr := "AAAA1111" }, { fpr := "BBBB2222" }] }]).flatten :=
  C5_index_contribution (clean_search "AAAA")
    [{ uids := [], subkeys := [{ fpr := "AAAA1111" }, { fpr := "BBBB2222" }] }]

/-- C7: whenever the import call returns a usable (truthy) result object,
the add route answers Keys imported: followed by a newline and the
newline-joined identifiers of result.imports, with status 201 when at least
one key was imported and 200 when the imported count is zero. -/
theorem C7_add_success_response (result : ImportResult) :
    add (.ok (some result)) =
      { status := if 1 ≤ result.imported then 201 else 200,
        body := "Keys imported:\n" ++ String.intercalate "\n" (result.imports.map ImportEntry.fpr),
        mimetype := "text/html" } := by
  by_cases h : result.imported = 0
  · simp [add, h]
  · simp [add, h, Nat.one_le_iff_ne_zero.mpr h]

/-- C7 witness: a result with two imported keys gets status 201 and both
identifiers in the body. -/
theorem C7_add_success_response_witness :
    add (.ok (some (⟨2, [⟨"AAAA", 0, 0⟩, ⟨"BBBB", 0, 0⟩]⟩ : ImportResult))) =
      { status := 201, body := "Keys imported:\nAAAA\nBBBB", mimetype := "text/html" } := by
  have h := C7_add_success_response (⟨2, [⟨"AAAA", 0, 0⟩, ⟨"BBBB", 0, 0⟩]⟩ : ImportResult)
  simpa using h

/-- C8: when the search parameter is present but its normalized form is
shorter than four characters, the index handler answers 500 Search must be
at least four characters, for every key store alike - the store plays no
part in the response. -/
theorem C8_short_search_500 (s : String) (ctx : KeyStore)
    (h : (clean_search s).length < 4) :
    LookupOpHandler.index (some s) ctx =
      { status := 500, body := "Search must be at least four characters", mimetype := "text/html" } := by
  simp [LookupOpHandler.index, h]

/-- C8 witness: the two-character search ab on the empty store. -/
theorem C8_short_search_500_witness :
    LookupOpHandler.index (some "ab") { keys := [] } =
      { status := 500, body := "Search must be at least four characters", mimetype := "text/html" } :=
  C8_short_search_500 "ab" { keys := [] } (by decide)

lemma intercalate_singleton (sep x : String) : String.intercalate sep [x] = x :=
  rfl

lemma indexMatches_nil_of_no_subkeys (t : String) (keys : List PyKey)
    (hall : ∀ k ∈ keys, uidMatches t k = true ∨ subkeyMatches t k = true → k.subkeys = []) :
    indexMatches t keys = [] := by
  induction keys with
  | nil => rfl
  | cons k ks ih =>
    have hk := hall k (List.mem_cons_self k ks)
    have hks := ih fun k2 hk2 => hall k2 (List.mem_cons_of_mem k hk2)
    show ((k.subkeys.filter fun sk => uidMatches t k || strContains sk.fpr t).map
        PySubkey.fpr) ++ indexMatches t ks = []
    rw [hks, List.append_nil]
    by_cases hu : uidMatches t k = true
    · rw [hk (Or.inl hu)]
      rfl
    · have hfil : (k.subkeys.filter fun sk => uidMatches t k || strContains sk.fpr t) = [] := by
        rw [List.filter_eq_nil_iff]
        intro sk hsk
        rw [Bool.not_eq_true] at hu
        intro hc
        rw [hu, Bool.false_or] at hc
        have hsub : subkeyMatches t k = true := List.any_eq_true.mpr ⟨sk, hsk, hc⟩
        have hempty := hk (Or.inr hsub)
        rw [hempty] at hsk
        cases hsk
      rw [hfil]
      rfl

/-- C9: when the normalized term is long enough, at least one key matches
it via a uid, and every matching key (by uid or by subkey fingerprint) has
no subkeys, the matches list stays empty and the index handler answers 404
No keys matching search request even though a key matched. -/
theorem C9_uid_only_match_no_lines (s : String) (ctx : KeyStore)
    (h4 : ¬ (clean_search s).length < 4)
    (hsome : ∃ k ∈ ctx.keys, uidMatches (clean_search s) k = true)
    (hall : ∀ k ∈ ctx.keys,
      uidMatches (clean_search s) k = true ∨ subkeyMatches (clean_search s) k = true →
      k.subkeys = []) :
    LookupOpHandler.index (some s) ctx =
      { status := 404, body := "No keys matching search request: " ++ clean_search s,
        mimetype := "text/html" } := by
  have hm := indexMatches_nil_of_no_subkeys (clean_search s) ctx.keys hall
  simp [LookupOpHandler.index, h4, hm]

/-- C9 witness: one key whose uid matches the term AAAA case-insensitively
and which carries no subkeys; the response is the 404. -/
theorem C9_uid_only_match_no_lines_witness :
    LookupOpHandler.index (some "AAAA")
        { keys := [{ uids := [{ uid := "x aaaa y" }], subkeys := [] }] } =
      { status := 404, body := "No keys matching search request: " ++ clean_search "AAAA",
        mimetype := "text/html" } :=
  C9_uid_only_match_no_lines "AAAA"
    { keys := [{ uids := [{ uid := "x aaaa y" }], subkeys := [] }] }
    (by decide) (by decide) (by decide)

/-- C10: uid matching is case-insensitive while subkey fingerprint matching
is case-sensitive: for a term contained in the uppercased form of a string
f but not in f itself, a key carrying f as a uid matches (and its subkey is
listed), while a key carrying f only as a subkey fingerprint does not match
and the handler answers 404. -/
theorem C10_uid_ci_subkey_cs (s u f : String)
    (h4 : ¬ (clean_search s).length < 4)
    (hu : strContains (pyUpper u) (clean_search s) = true)
    (hf : strContains f (clean_search s) = false) :
    LookupOpHandler.index (some s)
        { keys := [{ uids := [{ uid := u }], subkeys := [{ fpr := f }] }] } =
      { status := 200, body := f, mimetype := "text/plain" } ∧
    LookupOpHandler.index (some s)
        { keys := [{ uids := [], subkeys := [{ fpr := f }] }] } =
      { status := 404, body := "No keys matching search request: " ++ clean_search s,
        mimetype := "text/html" } := by
  constructor
  · simp [LookupOpHandler.index, h4, indexMatches, uidMatches, hu, intercalate_singleton]
  · simp [LookupOpHandler.index, h4, indexMatches, uidMatches, hf]

/-- C10 witness: the term aaaa (normalized AAAA) and the string aaaa1111,
whose uppercased form contains AAAA while the string itself does not. -/
theorem C10_uid_ci_subkey_cs_witness :
    LookupOpHandler.index (some "aaaa")
        { keys := [{ uids := [{ uid := "aaaa1111" }], subkeys := [{ fpr := "aaaa1111" }] }] } =
      { status := 200, body := "aaaa1111", mimetype := "text/plain" } ∧
    LookupOpHandler.index (some "aaaa")
        { keys := [{ uids := [], subkeys := [{ fpr := "aaaa1111" }] }] } =
      { status := 404, body := "No keys matching search request: " ++ clean_search "aaaa",
        mimetype := "text/html" } :=
  C10_uid_ci_subkey_cs "aaaa" "aaaa1111" "aaaa1111" (by decide) (by decide) (by decide)

end Pyhkp
